import Mathlib

/-!
Shallow embedding of `src/Расчет_средняя_продажа.py`: a four-stage DuckDB
pipeline (filter stock, aggregate sales, outer-join combine, aggregate to
averages) plus a generic bulk loader and a CSV exporter.  Tables are lists of
rows; numeric SQL values are rationals; SQL dates are calendar-date triples.
-/

namespace AvgSales

/-- A calendar date, as DuckDB's DATE type (no time-of-day). -/
structure Date where
  year : Nat
  month : Nat
  day : Nat
deriving DecidableEq, Repr

/-- Lexicographic order on dates (year, then month, then day), matching SQL
date comparison. -/
def Date.le (a b : Date) : Bool :=
  decide (a.year < b.year) ||
  (decide (a.year = b.year) &&
    (decide (a.month < b.month) ||
      (decide (a.month = b.month) && decide (a.day ≤ b.day))))

/-- SQL `x BETWEEN lo AND hi` on dates: inclusive on both ends. -/
def Date.between (d lo hi : Date) : Bool :=
  Date.le lo d && Date.le d hi

/-- A timestamp value as stored in the raw indicator feed's "Дата" column:
a calendar date plus a time-of-day (seconds since midnight).  The SQL cast
`::DATE` keeps only the `date` component. -/
structure SqlTimestamp where
  date : Date
  secondsOfDay : Nat
deriving DecidableEq, Repr

/-- The cast `"Дата"::DATE`: casting a timestamp to DATE discards the time-of-day. -/
def SqlTimestamp.castDate (t : SqlTimestamp) : Date := t.date

/-- One row of the raw stock feed (`parquet_data`), source columns
`final_store_id`, `final_item_id`, `dt`, `stock`. -/
structure StockRecord where
  final_store_id : String
  final_item_id : String
  dt : Date
  stock : ℚ
deriving DecidableEq, Repr

/-- One row of the trade-point directory (`trade_points`), source columns
"Код склада" (store code) and "Тип склада" (outlet-class label). -/
structure TradePoint where
  storeCode : String
  storeType : String
deriving DecidableEq, Repr

/-- One row of the raw indicator feed (`indicators`), source columns
"Код Склада", "Код товара", "Дата", "Отгрузки, шт.", "Отгрузки, руб.". -/
structure IndicatorRecord where
  storeCode : String
  itemCode : String
  date : SqlTimestamp
  shippedPc : ℚ
  shippedRub : ℚ
deriving DecidableEq, Repr

/-- One row of the derived `Stocks` table (stage 1 output). -/
structure StockRow where
  Store : String
  Item : String
  Dt : Date
  Stock_pc : ℚ
deriving DecidableEq, Repr

/-- One row of the derived `Sales` table (stage 2 output). -/
structure SalesRow where
  Store : String
  Item : String
  Dt : Date
  Sales_pc : ℚ
  Sales_rub : ℚ
deriving DecidableEq, Repr

/-- One row of the transient `combined_view` (stage 3 output). -/
structure CombinedRow where
  Dt : Date
  Store : String
  Item : String
  Sales_pc : ℚ
  Sales_rub : ℚ
  Stock_pc : ℚ
deriving DecidableEq, Repr

/-- One row of the final `Averages` table (stage 4 output). -/
structure AvgRow where
  Store : String
  Item : String
  Avg_sales_pc : ℚ
  Avg_sales_rub : ℚ
  Days_with_data : Nat
  Total_sales_rub : ℚ
  Total_sales_pc : ℚ
  Max_stock_pc : ℚ
deriving DecidableEq, Repr

/-! ### Stage 1: Store Filter (the `Stocks` query, source lines 80–94) -/

/-- The `IN`-subquery of the `Stocks` query: `final_store_id IN (SELECT
"Код склада" FROM trade_points WHERE "Тип склада" = 'Маленький склад')`. -/
def stocksStorePred (tps : List TradePoint) (storeId : String) : Bool :=
  decide (storeId ∈
    (tps.filter fun tp => decide (tp.storeType = "Маленький склад")).map (·.storeCode))

/-- Lower bound of the `Stocks` query's date window (`'2025-01-14'`). -/
def stocksDateLo : Date := ⟨2025, 1, 14⟩

/-- Upper bound of the `Stocks` query's date window (`'2025-03-31'`). -/
def stocksDateHi : Date := ⟨2025, 3, 31⟩

/-- The date condition of the `Stocks` query:
`dt BETWEEN '2025-01-14' AND '2025-03-31'`. -/
def stocksDatePred (d : Date) : Bool :=
  d.between stocksDateLo stocksDateHi

/-- The `Stocks` table: raw stock rows restricted to small-warehouse stores
within the date window, columns renamed to `Store, Item, Dt, Stock_pc`. -/
def Stocks (input : List StockRecord) (tps : List TradePoint) : List StockRow :=
  (input.filter fun r =>
      stocksStorePred tps r.final_store_id && stocksDatePred r.dt).map
    fun r => ⟨r.final_store_id, r.final_item_id, r.dt, r.stock⟩

/-! ### Stage 2: Sales Aggregation (the `Sales` query, source lines 97–113) -/

/-- The `IN`-subquery of the `Sales` query: `"Код Склада" IN (SELECT
"Код склада" FROM trade_points WHERE "Тип склада" = 'Маленький склад')`. -/
def salesStorePred (tps : List TradePoint) (storeId : String) : Bool :=
  decide (storeId ∈
    (tps.filter fun tp => decide (tp.storeType = "Маленький склад")).map (·.storeCode))

/-- Lower bound of the `Sales` query's date window (`'2025-01-14'`). -/
def salesDateLo : Date := ⟨2025, 1, 14⟩

/-- Upper bound of the `Sales` query's date window (`'2025-03-31'`). -/
def salesDateHi : Date := ⟨2025, 3, 31⟩

/-- The date condition of the `Sales` query:
`"Дата"::DATE BETWEEN '2025-01-14' AND '2025-03-31'`. -/
def salesDatePred (d : Date) : Bool :=
  d.between salesDateLo salesDateHi

/-- The grouping key of the `Sales` query (`GROUP BY 1, 2, 3`):
("Код Склада", "Код товара", "Дата"::DATE). -/
def salesKey (r : IndicatorRecord) : String × String × Date :=
  (r.storeCode, r.itemCode, r.date.castDate)

/-- The `WHERE` clause of the `Sales` query applied to one raw indicator
row. -/
def salesRowPred (tps : List TradePoint) (r : IndicatorRecord) : Bool :=
  salesStorePred tps r.storeCode && salesDatePred r.date.castDate

/-- The rows surviving the `WHERE` clause of the `Sales` query. -/
def salesFiltered (inds : List IndicatorRecord) (tps : List TradePoint) :
    List IndicatorRecord :=
  inds.filter (salesRowPred tps)

/-- The output row of the `Sales` query for one `GROUP BY` key `k`: the
group's summed shipped units and summed shipped currency. -/
def salesGroupRow (filtered : List IndicatorRecord) (k : String × String × Date) :
    SalesRow :=
  let grp := filtered.filter fun r => decide (salesKey r = k)
  { Store := k.1, Item := k.2.1, Dt := k.2.2,
    Sales_pc := (grp.map (·.shippedPc)).sum,
    Sales_rub := (grp.map (·.shippedRub)).sum }

/-- The `Sales` table: indicator rows restricted to small-warehouse stores
and the date window, grouped by (store, item, calendar date), with summed
shipped units and shipped currency. -/
def Sales (inds : List IndicatorRecord) (tps : List TradePoint) : List SalesRow :=
  (((salesFiltered inds tps).map salesKey).dedup).map
    (salesGroupRow (salesFiltered inds tps))

/-! ### Stage 3: Combiner (the `combined_view` query, source lines 116–129) -/

/-- The join condition `s.Dt = st.Dt AND s.Store = st.Store AND
s.Item = st.Item`. -/
def joinMatch (s : SalesRow) (st : StockRow) : Bool :=
  decide (s.Dt = st.Dt) && decide (s.Store = st.Store) && decide (s.Item = st.Item)

/-- The join `Sales s FULL OUTER JOIN Stocks st ON ...` as a list of pairs: `none`
on a side means that side contributed no row (its columns are SQL NULL). -/
def fullOuterJoin (ss : List SalesRow) (sts : List StockRow) :
    List (Option SalesRow × Option StockRow) :=
  (ss.flatMap fun s =>
    let ms := sts.filter (joinMatch s)
    if ms.isEmpty then [(some s, none)] else ms.map fun st => (some s, some st))
  ++ ((sts.filter fun st => !(ss.any fun s => joinMatch s st)).map
      fun st => ((none : Option SalesRow), some st))

/-- The `WHERE s.Sales_pc > 0 OR st.Stock_pc > 0` clause under SQL
three-valued logic: a comparison against a NULL operand is unknown, and the
filter keeps only rows where the whole condition is true. -/
def combinedWhere (p : Option SalesRow × Option StockRow) : Bool :=
  (match p.1 with
   | some s => decide (0 < s.Sales_pc)
   | none => false) ||
  (match p.2 with
   | some st => decide (0 < st.Stock_pc)
   | none => false)

/-- The `SELECT COALESCE(...)` list of the combiner: join keys taken from
whichever side is present, NULL measures coalesced to 0. -/
def coalesceRow : Option SalesRow × Option StockRow → CombinedRow
  | (some s, some st) => ⟨s.Dt, s.Store, s.Item, s.Sales_pc, s.Sales_rub, st.Stock_pc⟩
  | (some s, none) => ⟨s.Dt, s.Store, s.Item, s.Sales_pc, s.Sales_rub, 0⟩
  | (none, some st) => ⟨st.Dt, st.Store, st.Item, 0, 0, st.Stock_pc⟩
  | (none, none) => ⟨⟨0, 0, 0⟩, "", "", 0, 0, 0⟩

/-- The transient `combined_view`: full outer join of `Sales` and `Stocks`,
filtered by the activity condition, with NULLs coalesced away. -/
def combined_view (ss : List SalesRow) (sts : List StockRow) : List CombinedRow :=
  ((fullOuterJoin ss sts).filter combinedWhere).map coalesceRow

/-! ### Stage 4: Averaging (the `Averages` query, source lines 132–146) -/

/-- SQL `MAX` over a group's values (groups are never empty in `GROUP BY`
output; the `[]` case is unreachable). -/
def sqlMax : List ℚ → ℚ
  | [] => 0
  | x :: xs => xs.foldl max x

/-- The output row of the `Averages` query for one `GROUP BY` key `k`:
the group's mean, count, totals, and maximum stock. -/
def averagesGroupRow (cv : List CombinedRow) (k : String × String) : AvgRow :=
  let grp := cv.filter fun r => decide ((r.Store, r.Item) = k)
  { Store := k.1, Item := k.2,
    Avg_sales_pc := (grp.map (·.Sales_pc)).sum / (grp.length : ℚ),
    Avg_sales_rub := (grp.map (·.Sales_rub)).sum / (grp.length : ℚ),
    Days_with_data := grp.length,
    Total_sales_rub := (grp.map (·.Sales_rub)).sum,
    Total_sales_pc := (grp.map (·.Sales_pc)).sum,
    Max_stock_pc := sqlMax (grp.map (·.Stock_pc)) }

/-- The `Averages` table: `combined_view` grouped by (Store, Item) with the
per-group mean, count, totals, and maximum stock. -/
def Averages (cv : List CombinedRow) : List AvgRow :=
  ((cv.map fun r => (r.Store, r.Item)).dedup).map (averagesGroupRow cv)

/-! ### Bulk Loader (`load_file_to_duckdb`, source lines 18–51)

The database is modelled as an association list of named tables; a table's
contents are abstracted by a type parameter `α` (the loader never inspects
rows).  The filesystem is the list of existing paths.  The loader also
returns the trace of SQL statements it issued, so that "no database
operation before the existence check" is observable. -/

/-- A database state visible to the loader: the set of existing file paths
and the named tables. -/
structure DBState (α : Type) where
  files : List String
  tables : List (String × α)
deriving DecidableEq, Repr

/-- A SQL statement issued by the loader: `DROP TABLE IF EXISTS t` or
`CREATE TABLE t AS SELECT ...`. -/
inductive DbOp
  | dropTable (name : String)
  | createTable (name : String)
deriving DecidableEq, Repr

/-- The loader `load_file_to_duckdb(paths, conn, table_name, data_type, overwrite)`:
checks every path for existence first (raising `FileNotFoundError` at the
first missing one, before issuing any SQL); then, if `overwrite`, drops any
existing table of that name; then creates the table from the files' union.
Creating over a still-existing table is the engine's error.  Returns the
issued SQL trace together with either the error message or the new state. -/
def load_file_to_duckdb (paths : List String) (st : DBState α)
    (table_name : String) (readFiles : List String → α) (overwrite : Bool) :
    List DbOp × Except String (DBState α) :=
  match paths.find? fun p => !(decide (p ∈ st.files)) with
  | some p => ([], .error ("File not found: " ++ p))
  | none =>
    if (((if overwrite then st.tables.filter fun kv => !(decide (kv.1 = table_name))
          else st.tables)).lookup table_name).isSome then
      ((if overwrite then [DbOp.dropTable table_name] else []) ++
        [DbOp.createTable table_name],
       .error ("Table with name " ++ table_name ++ " already exists!"))
    else
      ((if overwrite then [DbOp.dropTable table_name] else []) ++
        [DbOp.createTable table_name],
       .ok { st with tables := (table_name, readFiles paths) ::
        (if overwrite then st.tables.filter fun kv => !(decide (kv.1 = table_name))
         else st.tables) })

/-! ### The whole pipeline (`main`, source lines 54–159)

With `load_files=True` every source table is reloaded with `overwrite=True`
and every derived table is `CREATE OR REPLACE`d, so each named table of the
resulting state is rebuilt from the input files alone. -/

/-- The contents of the three configured input file sets. -/
structure PipelineInputs where
  stockFeed : List StockRecord
  tradePoints : List TradePoint
  indicators : List IndicatorRecord

/-- The tables `main` reads or writes, each `none` when absent. -/
structure PipelineState where
  parquet_data : Option (List StockRecord)
  trade_points : Option (List TradePoint)
  indicators : Option (List IndicatorRecord)
  stocksTable : Option (List StockRow)
  salesTable : Option (List SalesRow)
  averagesTable : Option (List AvgRow)
deriving Repr

/-- One run of `main(load_files=True)` on a database in state `st`: the
three loads replace the raw tables wholesale (`overwrite=True` drops any
prior table), and each of the four stage queries is `CREATE OR REPLACE`. -/
def runPipeline (inp : PipelineInputs) (st : PipelineState) : PipelineState :=
  let st1 := { st with
    parquet_data := some inp.stockFeed,
    trade_points := some inp.tradePoints,
    indicators := some inp.indicators }
  let stocks := Stocks inp.stockFeed inp.tradePoints
  let sales := Sales inp.indicators inp.tradePoints
  let cv := combined_view sales stocks
  { st1 with
    stocksTable := some stocks,
    salesTable := some sales,
    averagesTable := some (Averages cv) }

/-! ### Exporter (source lines 148–159) -/

/-- The wall-clock time at export, to second granularity
(`datetime.now()`). -/
structure Timestamp where
  year : Nat
  month : Nat
  day : Nat
  hour : Nat
  minute : Nat
  second : Nat
deriving DecidableEq, Repr

/-- The decimal digit character for `n % 10`. -/
def digitChar (n : Nat) : Char := Char.ofNat (48 + n % 10)

/-- Modelled from the spec: a two-digit zero-padded decimal field of
`strftime` (`%m`, `%d`, `%H`, `%M`, `%S`); the formatter itself is Python
library code, not in `src/`. -/
def pad2 (n : Nat) : String :=
  String.mk [digitChar (n / 10), digitChar n]

/-- Modelled from the spec: the four-digit zero-padded `%Y` field of
`strftime`; the formatter itself is Python library code, not in `src/`. -/
def pad4 (n : Nat) : String :=
  String.mk [digitChar (n / 1000), digitChar (n / 100), digitChar (n / 10), digitChar n]

/-- The run timestamp `datetime.now().strftime('%Y%m%d_%H%M%S')`. -/
def formatTimestamp (t : Timestamp) : String :=
  pad4 t.year ++ pad2 t.month ++ pad2 t.day ++ "_" ++
    pad2 t.hour ++ pad2 t.minute ++ pad2 t.second

/-- The output filename, from the f-string avg_sales_TIMESTAMP.csv in main. -/
def outputFilename (t : Timestamp) : String :=
  "avg_sales_" ++ formatTimestamp t ++ ".csv"

/-- The options of the `COPY Averages TO ...` statement:
`FORMAT CSV, HEADER TRUE, DELIMITER ';', QUOTE '"'`. -/
structure CsvConfig where
  header : Bool
  delimiter : Char
  quote : Char
deriving DecidableEq, Repr

/-- The export configuration issued by `main`. -/
def exportConfig : CsvConfig := ⟨true, ';', '"'⟩

/-- The column names of the `Averages` table, in `SELECT`-list order. -/
def averagesColumns : List String :=
  ["Store", "Item", "Avg_sales_pc", "Avg_sales_rub", "Days_with_data",
   "Total_sales_rub", "Total_sales_pc", "Max_stock_pc"]

/-- Modelled from the spec: the embedded engine's CSV writer (not in
`src/`) renders the header row by quoting each text field with the
configured quote character and joining fields with the configured
delimiter. -/
def csvHeaderLine (cfg : CsvConfig) (cols : List String) : String :=
  String.intercalate (String.mk [cfg.delimiter])
    (cols.map fun c => String.mk [cfg.quote] ++ c ++ String.mk [cfg.quote])

/-! ### Auxiliary definitions used by the statements -/

/-- Zeroing the time-of-day of a raw indicator row: states that the
`"Дата"::DATE` normalization makes any time-of-day component irrelevant. -/
def stripTime (r : IndicatorRecord) : IndicatorRecord :=
  { r with date := ⟨r.date.date, 0⟩ }

/-- The spec's worked scenario: the sales row (2025-02-01, S1, I1, 3 units,
30 currency). -/
def scenarioSales : SalesRow := ⟨"S1", "I1", ⟨2025, 2, 1⟩, 3, 30⟩

/-- The spec's worked scenario: the stock row (2025-02-01, S1, I1, 5). -/
def scenarioStock1 : StockRow := ⟨"S1", "I1", ⟨2025, 2, 1⟩, 5⟩

/-- The spec's worked scenario: the stock row (2025-02-02, S1, I1, 0). -/
def scenarioStock2 : StockRow := ⟨"S1", "I1", ⟨2025, 2, 2⟩, 0⟩

/-- The single combined row the scenario should retain. -/
def scenarioCombined : CombinedRow := ⟨⟨2025, 2, 1⟩, "S1", "I1", 3, 30, 5⟩

/-- The single `Averages` row the scenario should produce. -/
def scenarioAvg : AvgRow := ⟨"S1", "I1", 3, 30, 1, 30, 3, 5⟩

/-- A raw indicator record for the scenario's sale, carrying a 01:00
time-of-day that the `::DATE` cast discards. -/
def scenarioIndicator : IndicatorRecord := ⟨"S1", "I1", ⟨⟨2025, 2, 1⟩, 3600⟩, 3, 30⟩

/-- The scenario's small-warehouse trade point. -/
def scenarioTradePoint : TradePoint := ⟨"S1", "Маленький склад"⟩

/-! ### Helper lemmas -/

/-- The combiner's `WHERE` clause, evaluated under SQL three-valued logic on
the raw joined pair, agrees with the positivity test on the coalesced
row. -/
theorem combinedWhere_eq_coalesced (p : Option SalesRow × Option StockRow) :
    combinedWhere p =
      (decide (0 < (coalesceRow p).Sales_pc) || decide (0 < (coalesceRow p).Stock_pc)) := by
  rcases p with ⟨_ | s, _ | st⟩ <;>
    simp [combinedWhere, coalesceRow]

/-- Evaluation of the combiner on the scenario inputs. -/
theorem combined_scenario :
    combined_view [scenarioSales] [scenarioStock1, scenarioStock2] = [scenarioCombined] := by
  decide

/-- Evaluation of the averaging stage on the scenario's combined row. -/
theorem averages_scenario : Averages [scenarioCombined] = [scenarioAvg] := by
  norm_num [Averages, averagesGroupRow, List.dedup, sqlMax, scenarioCombined, scenarioAvg]

/-- Evaluation of the sales aggregation on one raw indicator record. -/
theorem sales_single :
    Sales [scenarioIndicator] [scenarioTradePoint] = [scenarioSales] := by
  norm_num [Sales, salesFiltered, salesGroupRow, salesRowPred, salesStorePred,
    salesDatePred, salesKey, SqlTimestamp.castDate, List.dedup, Date.between,
    Date.le, salesDateLo, salesDateHi, scenarioIndicator, scenarioTradePoint,
    scenarioSales]

/-- Looking up a key is unchanged by filtering out the entries of one other
key. -/
theorem lookup_filter_ne {α : Type} (l : List (String × α)) (t n : String)
    (h : n ≠ t) :
    (l.filter fun kv => !(decide (kv.1 = t))).lookup n = l.lookup n := by
  induction l with
  | nil => rfl
  | cons kv rest ih =>
    obtain ⟨k, v⟩ := kv
    by_cases hk : k = t
    · subst hk
      have hbeq : (n == k) = false := beq_eq_false_iff_ne.mpr h
      simp [List.filter_cons, List.lookup_cons, hbeq, ih]
    · by_cases hn : n = k
      · subst hn
        simp [List.filter_cons, List.lookup_cons, hk, ih]
      · have hbeq : (n == k) = false := beq_eq_false_iff_ne.mpr hn
        simp [List.filter_cons, List.lookup_cons, hk, hbeq, ih]

/-! ### The claims -/

/-- C1 counterexample: the claim "the activity filter excludes exactly the
rows whose coalesced sales units and stock quantity are both zero, and no
others (a row with negative sales units and absent stock is retained)" is
false: for Sales = [(2025-02-01, S1, I1, -1 units, 0 currency)] and
Stocks = [], the outer join yields one row whose coalesced values are
(-1, 0) — not both zero — yet `combined_view` is empty: the row is
dropped. -/
theorem C1_counterexample :
    fullOuterJoin [⟨"S1", "I1", ⟨2025, 2, 1⟩, -1, 0⟩] [] =
      [(some ⟨"S1", "I1", ⟨2025, 2, 1⟩, -1, 0⟩, none)] ∧
    (coalesceRow (some ⟨"S1", "I1", ⟨2025, 2, 1⟩, -1, 0⟩, none)).Sales_pc = -1 ∧
    (coalesceRow (some ⟨"S1", "I1", ⟨2025, 2, 1⟩, -1, 0⟩, none)).Stock_pc = 0 ∧
    combined_view [⟨"S1", "I1", ⟨2025, 2, 1⟩, -1, 0⟩] [] = [] := by
  refine ⟨by decide, by decide, by decide, by decide⟩

/-- C1 (amended): every row of `combined_view` satisfies
`Sales_pc > 0 ∨ Stock_pc > 0` after coalescing, and the activity filter
excludes exactly the joined rows whose coalesced sales units and stock
quantity are both non-positive — so a row with negative sales units and
absent stock is dropped, not retained. -/
theorem C1_activity_filter (ss : List SalesRow) (sts : List StockRow) :
    combined_view ss sts =
      ((fullOuterJoin ss sts).map coalesceRow).filter
        (fun r => decide (0 < r.Sales_pc) || decide (0 < r.Stock_pc)) ∧
    ∀ r ∈ combined_view ss sts, 0 < r.Sales_pc ∨ 0 < r.Stock_pc := by
  have hmain : combined_view ss sts =
      ((fullOuterJoin ss sts).map coalesceRow).filter
        (fun r => decide (0 < r.Sales_pc) || decide (0 < r.Stock_pc)) := by
    rw [combined_view, List.filter_map]
    congr 1
    apply List.filter_congr
    intro p _
    exact combinedWhere_eq_coalesced p
  refine ⟨hmain, ?_⟩
  intro r hr
  rw [hmain] at hr
  have hcond := (List.mem_filter.mp hr).2
  simpa using hcond

/-- Witness for C1 (amended): instantiated on the worked scenario, where
the retained combined row has Sales_pc = 3 and Stock_pc = 5. -/
theorem C1_activity_filter_witness :
    0 < scenarioCombined.Sales_pc ∨ 0 < scenarioCombined.Stock_pc :=
  (C1_activity_filter [scenarioSales] [scenarioStock1, scenarioStock2]).2
    scenarioCombined (by rw [combined_scenario]; exact List.mem_singleton.mpr rfl)

/-- C2: every row of `Averages` has `Total_sales_pc` equal to the sum of
`Sales_pc` over its (store, item) group of `combined_view` rows,
`Days_with_data` equal to the number of those rows, and `Avg_sales_pc`
equal to `Total_sales_pc / Days_with_data`. -/
theorem C2_aggregation (cv : List CombinedRow) (r : AvgRow)
    (hr : r ∈ Averages cv) :
    r.Total_sales_pc =
      ((cv.filter fun x => decide ((x.Store, x.Item) = (r.Store, r.Item))).map
        (·.Sales_pc)).sum ∧
    r.Days_with_data =
      (cv.filter fun x => decide ((x.Store, x.Item) = (r.Store, r.Item))).length ∧
    r.Avg_sales_pc = r.Total_sales_pc / (r.Days_with_data : ℚ) := by
  simp only [Averages] at hr
  obtain ⟨k, hk, rfl⟩ := List.mem_map.mp hr
  exact ⟨rfl, rfl, rfl⟩

/-- Witness for C2: instantiated on the worked scenario's single-row
combined view and its `Averages` row. -/
theorem C2_aggregation_witness :
    scenarioAvg.Total_sales_pc =
      (([scenarioCombined].filter fun x =>
        decide ((x.Store, x.Item) = (scenarioAvg.Store, scenarioAvg.Item))).map
        (·.Sales_pc)).sum ∧
    scenarioAvg.Days_with_data =
      ([scenarioCombined].filter fun x =>
        decide ((x.Store, x.Item) = (scenarioAvg.Store, scenarioAvg.Item))).length ∧
    scenarioAvg.Avg_sales_pc = scenarioAvg.Total_sales_pc / (scenarioAvg.Days_with_data : ℚ) :=
  C2_aggregation [scenarioCombined] scenarioAvg
    (by rw [averages_scenario]; exact List.mem_singleton.mpr rfl)

/-- C3: when the loader's path list contains a nonexistent file, it raises
the missing-input error naming a missing path and issues no database
operation at all — no table is dropped or created, whatever the other paths
and the `overwrite` flag are. -/
theorem C3_missing_input {α : Type} (paths : List String) (st : DBState α)
    (table_name : String) (readFiles : List String → α) (overwrite : Bool)
    (h : ∃ p ∈ paths, p ∉ st.files) :
    (load_file_to_duckdb paths st table_name readFiles overwrite).1 = [] ∧
    ∃ p ∈ paths, p ∉ st.files ∧
      (load_file_to_duckdb paths st table_name readFiles overwrite).2 =
        .error ("File not found: " ++ p) := by
  have hsome : (paths.find? fun p => !(decide (p ∈ st.files))).isSome := by
    rw [List.find?_isSome]
    obtain ⟨p, hp, hnp⟩ := h
    exact ⟨p, hp, by simpa using hnp⟩
  obtain ⟨q, hq⟩ := Option.isSome_iff_exists.mp hsome
  have hmem := List.mem_of_find?_eq_some hq
  have hpred := List.find?_some hq
  have hqnot : q ∉ st.files := by simpa using hpred
  unfold load_file_to_duckdb
  rw [hq]
  exact ⟨rfl, q, hmem, hqnot, rfl⟩

/-- Witness for C3: a one-element path list whose file is absent from an
empty filesystem, with `overwrite = true`: no SQL issued, the error names
the path. -/
theorem C3_missing_input_witness :
    (load_file_to_duckdb ["static/data_part_1.parquet"] (⟨[], []⟩ : DBState Nat)
        "parquet_data" (fun _ => 0) true).1 = [] ∧
    (load_file_to_duckdb ["static/data_part_1.parquet"] (⟨[], []⟩ : DBState Nat)
        "parquet_data" (fun _ => 0) true).2 =
      Except.error ("File not found: " ++ "static/data_part_1.parquet") := by
  obtain ⟨h1, p, hp, hnp, herr⟩ := C3_missing_input ["static/data_part_1.parquet"]
    (⟨[], []⟩ : DBState Nat) "parquet_data" (fun _ => 0) true
    ⟨"static/data_part_1.parquet", by decide, by decide⟩
  have hpe : p = "static/data_part_1.parquet" := by simpa using hp
  subst hpe
  exact ⟨h1, herr⟩

/-- C4: every row of `Stocks` has a store listed in the trade-point
directory with outlet class "Маленький склад", and a date inside the
inclusive window [2025-01-14, 2025-03-31]. -/
theorem C4_stocks_filter (input : List StockRecord) (tps : List TradePoint)
    (r : StockRow) (hr : r ∈ Stocks input tps) :
    (∃ tp ∈ tps, tp.storeType = "Маленький склад" ∧ tp.storeCode = r.Store) ∧
    Date.le stocksDateLo r.Dt = true ∧ Date.le r.Dt stocksDateHi = true := by
  simp only [Stocks] at hr
  obtain ⟨raw, hraw, rfl⟩ := List.mem_map.mp hr
  obtain ⟨hmem, hpred⟩ := List.mem_filter.mp hraw
  simp only [Bool.and_eq_true] at hpred
  obtain ⟨hstore, hdate⟩ := hpred
  constructor
  · simp only [stocksStorePred, decide_eq_true_eq] at hstore
    obtain ⟨tp, htp, hcode⟩ := List.mem_map.mp hstore
    obtain ⟨htps, htype⟩ := List.mem_filter.mp htp
    exact ⟨tp, htps, by simpa using htype, hcode⟩
  · simp only [stocksDatePred, Date.between, Bool.and_eq_true] at hdate
    exact hdate

/-- Witness for C4: a concrete stock record at a small-warehouse store on
2025-02-01 lies inside the window. -/
theorem C4_stocks_filter_witness :
    Date.le stocksDateLo (⟨2025, 2, 1⟩ : Date) = true ∧
    Date.le (⟨2025, 2, 1⟩ : Date) stocksDateHi = true :=
  (C4_stocks_filter [⟨"S1", "I1", ⟨2025, 2, 1⟩, 5⟩] [⟨"S1", "Маленький склад"⟩]
    ⟨"S1", "I1", ⟨2025, 2, 1⟩, 5⟩ (by decide)).2

/-- C5: on the worked scenario — Stocks rows (2025-02-01, S1, I1, 5) and
(2025-02-02, S1, I1, 0), Sales row (2025-02-01, S1, I1, 3 units, 30
currency) — `combined_view` is exactly the one row
(2025-02-01, S1, I1, 3, 30, 5), and `Averages` is exactly the one row with
Avg_sales_pc = 3, Avg_sales_rub = 30, Days_with_data = 1,
Total_sales_rub = 30, Total_sales_pc = 3, Max_stock_pc = 5. -/
theorem C5_scenario :
    combined_view [scenarioSales] [scenarioStock1, scenarioStock2] = [scenarioCombined] ∧
    Averages (combined_view [scenarioSales] [scenarioStock1, scenarioStock2]) = [scenarioAvg] := by
  refine ⟨combined_scenario, ?_⟩
  rw [combined_scenario]
  exact averages_scenario

/-- C6: the store-eligibility predicate and the date window used by the
Sales Aggregation Stage are identical to those used by the Store Filter
Stage. -/
theorem C6_shared_filters :
    salesStorePred = stocksStorePred ∧ salesDateLo = stocksDateLo ∧
    salesDateHi = stocksDateHi ∧ salesDatePred = stocksDatePred :=
  ⟨rfl, rfl, rfl, rfl⟩

/-- C7: the `Sales` table has at most one row per (store, item, date)
triple, and its contents are invariant under discarding the raw feed's
time-of-day components (the `::DATE` normalization). -/
theorem C7_sales_grain :
    (∀ (inds : List IndicatorRecord) (tps : List TradePoint) (r1 r2 : SalesRow),
      r1 ∈ Sales inds tps → r2 ∈ Sales inds tps →
      r1.Store = r2.Store → r1.Item = r2.Item → r1.Dt = r2.Dt → r1 = r2) ∧
    ∀ (inds : List IndicatorRecord) (tps : List TradePoint),
      Sales (inds.map stripTime) tps = Sales inds tps := by
  constructor
  · intro inds tps r1 r2 h1 h2 hs hi hd
    simp only [Sales] at h1 h2
    obtain ⟨k1, hk1, rfl⟩ := List.mem_map.mp h1
    obtain ⟨k2, hk2, rfl⟩ := List.mem_map.mp h2
    have hk : k1 = k2 := Prod.ext_iff.mpr ⟨hs, Prod.ext_iff.mpr ⟨hi, hd⟩⟩
    rw [hk]
  · intro inds tps
    have hfilt : salesFiltered (inds.map stripTime) tps =
        (salesFiltered inds tps).map stripTime := by
      simp only [salesFiltered]
      rw [List.filter_map]
      rfl
    have hfn : salesGroupRow ((salesFiltered inds tps).map stripTime) =
        salesGroupRow (salesFiltered inds tps) := by
      funext k
      simp only [salesGroupRow]
      rw [List.filter_map, List.map_map, List.map_map]
      rfl
    simp only [Sales, hfilt, hfn, List.map_map]
    rfl

/-- Witness for C7: the uniqueness half applied to the one-row `Sales`
table built from a single indicator record carrying a nonzero
time-of-day. -/
theorem C7_sales_grain_witness : scenarioSales = scenarioSales :=
  C7_sales_grain.1 [scenarioIndicator] [scenarioTradePoint] scenarioSales scenarioSales
    (by rw [sales_single]; exact List.mem_singleton.mpr rfl)
    (by rw [sales_single]; exact List.mem_singleton.mpr rfl)
    rfl rfl rfl

/-- C8: re-running the whole pipeline with `load_files = true` on unchanged
inputs is idempotent — indeed the post-run state is a function of the
inputs alone, independent of the database's prior state. -/
theorem C8_idempotent_rerun (inp : PipelineInputs) (st st' : PipelineState) :
    runPipeline inp st = runPipeline inp st' ∧
    (runPipeline inp (runPipeline inp st)).averagesTable =
      (runPipeline inp st).averagesTable :=
  ⟨rfl, rfl⟩

/-- C9: the export file is named `avg_sales_<YYYYMMDD_HHMMSS>.csv` built
from a second-granularity timestamp (the formatted part is always 15
characters: 8 date digits, an underscore, 6 time digits), and the header
row of the CSV holds exactly the eight `Averages` columns in order,
semicolon-separated and double-quoted. -/
theorem C9_export_format :
    (∀ t : Timestamp,
      outputFilename t =
        "avg_sales_" ++ (pad4 t.year ++ pad2 t.month ++ pad2 t.day ++ "_" ++
          pad2 t.hour ++ pad2 t.minute ++ pad2 t.second) ++ ".csv" ∧
      (formatTimestamp t).length = 15) ∧
    outputFilename ⟨2025, 10, 12, 13, 5, 7⟩ = "avg_sales_20251012_130507.csv" ∧
    csvHeaderLine exportConfig averagesColumns =
      "\"Store\";\"Item\";\"Avg_sales_pc\";\"Avg_sales_rub\";\"Days_with_data\";\"Total_sales_rub\";\"Total_sales_pc\";\"Max_stock_pc\"" ∧
    exportConfig.header = true ∧ exportConfig.delimiter = ';' ∧
    exportConfig.quote = '"' := by
  exact ⟨fun t => ⟨rfl, rfl⟩, by decide, by decide, rfl, rfl, rfl⟩

/-- C10: a successful load leaves every table other than the target
unchanged — the issued SQL drops or creates only the target table, the
filesystem is untouched, and lookups of any other table name are
preserved. -/
theorem C10_loader_frame {α : Type} (paths : List String) (st : DBState α)
    (table_name : String) (readFiles : List String → α) (overwrite : Bool)
    (ops : List DbOp) (st' : DBState α)
    (h : load_file_to_duckdb paths st table_name readFiles overwrite = (ops, .ok st')) :
    st'.files = st.files ∧
    (∀ op ∈ ops, op = DbOp.dropTable table_name ∨ op = DbOp.createTable table_name) ∧
    ∀ n, n ≠ table_name → st'.tables.lookup n = st.tables.lookup n := by
  unfold load_file_to_duckdb at h
  cases overwrite
  case false =>
    split at h
    · exact absurd (congrArg Prod.snd h) (by simp)
    · simp only [Bool.false_eq_true, if_false, ite_false] at h
      split at h
      · exact absurd (congrArg Prod.snd h) (by simp)
      · obtain ⟨hops, hok⟩ := Prod.mk.injEq .. |>.mp h
        simp only [Except.ok.injEq] at hok
        subst hok
        refine ⟨rfl, ?_, ?_⟩
        · intro op hop
          rw [← hops] at hop
          simp only [List.nil_append, List.mem_singleton] at hop
          exact Or.inr hop
        · intro n hn
          have hbeq : (n == table_name) = false := beq_eq_false_iff_ne.mpr hn
          rw [List.lookup_cons]
          simp only [hbeq]
  case true =>
    split at h
    · exact absurd (congrArg Prod.snd h) (by simp)
    · simp only [if_true, ite_true] at h
      split at h
      · exact absurd (congrArg Prod.snd h) (by simp)
      · obtain ⟨hops, hok⟩ := Prod.mk.injEq .. |>.mp h
        simp only [Except.ok.injEq] at hok
        subst hok
        refine ⟨rfl, ?_, ?_⟩
        · intro op hop
          rw [← hops] at hop
          simp only [List.cons_append, List.nil_append, List.mem_cons,
            List.not_mem_nil, or_false] at hop
          exact hop
        · intro n hn
          have hbeq : (n == table_name) = false := beq_eq_false_iff_ne.mpr hn
          rw [List.lookup_cons]
          simp only [hbeq]
          exact lookup_filter_ne st.tables table_name n hn

/-- Witness for C10: a successful overwriting load of table `t` into a
store holding one other table preserves the lookup of that other table. -/
theorem C10_loader_frame_witness :
    (⟨["f"], [("t", 7), ("other", 5)]⟩ : DBState Nat).tables.lookup "other" =
      (⟨["f"], [("other", 5)]⟩ : DBState Nat).tables.lookup "other" :=
  (C10_loader_frame ["f"] (⟨["f"], [("other", 5)]⟩ : DBState Nat) "t"
    (fun _ => 7) true [DbOp.dropTable "t", DbOp.createTable "t"]
    (⟨["f"], [("t", 7), ("other", 5)]⟩ : DBState Nat) rfl).2.2
    "other" (by decide)

end AvgSales
